import Mathlib

/-!
Verification of the streaming-session core of the `gradium` Go SDK
(TTS and STT websocket streams: dispatcher loop, readiness gate, error
register, bounded result channels, aggregators, idempotent close).

The inbound wire is modelled as a list of transport events; JSON
unmarshalling and base64 decoding are external collaborators, so each
frame carries the outcome of the decodes the dispatcher would perform
on it (an `Option` that is `none` exactly when the decode fails, and
the zero-value-on-failure structs where the Go code ignores the
unmarshal error).  Machine integers are `Int`; float64 fields are only
carried through, never computed on, so they are modelled by their
64-bit patterns (`F64 := Nat`).
-/

namespace Gradium

/-- IEEE-754 float64 fields of wire messages, represented by their bit
pattern: the dispatcher only copies them, never computes on them. -/
abbrev F64 := Nat

/-- Mirror of `WebSocketError` (errors.go): message plus numeric code
(the Go zero value 0 when the constructor omits `Code`). -/
structure WebSocketError where
  message : String
  code : Int
deriving DecidableEq, Repr

/-- Mirror of `ttsReadyMessage` (types.go), sans the tag field. -/
structure TTSReadyMessage where
  requestID : String
deriving DecidableEq, Repr

/-- Mirror of `ttsAudioMessage` (types.go): base64 text payload. -/
structure TTSAudioMessage where
  audio : String
deriving DecidableEq, Repr

/-- Mirror of `ttsErrorMessage` (types.go). -/
structure TTSErrorMessage where
  message : String
  code : Int
deriving DecidableEq, Repr

/-- Mirror of `sttReadyMessage` (types.go). -/
structure STTReadyMessage where
  requestID : String
  modelName : String
  sampleRate : Int
  frameSize : Int
  delayInTokens : Int
  textStreamNames : List String
deriving DecidableEq, Repr

/-- Mirror of `VADPrediction` (types.go). -/
structure VADPrediction where
  horizonS : F64
  inactivityProb : F64
deriving DecidableEq, Repr

/-- Mirror of `sttTextMessage` (types.go), sans the tag field. -/
structure STTTextMessage where
  text : String
  startS : F64
  streamID : Option Int
deriving DecidableEq, Repr

/-- Mirror of `sttStepMessage` (types.go), sans the tag field. -/
structure STTStepMessage where
  vad : List VADPrediction
  stepIdx : Int
  stepDurationS : F64
  totalDurationS : F64
deriving DecidableEq, Repr

/-- Mirror of `sttEndTextMessage` (types.go), sans the tag field. -/
structure STTEndTextMessage where
  stopS : F64
  streamID : Option Int
deriving DecidableEq, Repr

/-- Mirror of `sttErrorMessage` (types.go). -/
structure STTErrorMessage where
  message : String
  code : Int
deriving DecidableEq, Repr

/-- Mirror of `STTReadyInfo` (types.go). -/
structure STTReadyInfo where
  requestID : String
  modelName : String
  sampleRate : Int
  frameSize : Int
  delayInTokens : Int
  textStreamNames : List String
deriving DecidableEq, Repr

/-- Mirror of `STTTextResult` (types.go). -/
structure STTTextResult where
  text : String
  startS : F64
  streamID : Option Int
deriving DecidableEq, Repr

/-- Mirror of `STTStepResult` (types.go). -/
structure STTStepResult where
  vad : List VADPrediction
  stepIdx : Int
  stepDurationS : F64
  totalDurationS : F64
deriving DecidableEq, Repr

/-- Mirror of `STTEndTextResult` (types.go). -/
structure STTEndTextResult where
  stopS : F64
  streamID : Option Int
deriving DecidableEq, Repr

/-- Element of the STT unified feed channel `allMsgCh` (Go `interface{}`):
only the three structured result kinds are ever sent on it. -/
inductive STTAnyResult where
  | text (r : STTTextResult)
  | step (r : STTStepResult)
  | endText (r : STTEndTextResult)
deriving DecidableEq, Repr

/-- Mirror of `TTSResult` (types.go); `rawData` is the byte buffer. -/
structure TTSResult where
  rawData : List Nat
  sampleRate : Int
  requestID : String
deriving DecidableEq, Repr

/-- Message-type constants (stt.go). -/
def msgTypeReady : String := "ready"

/-- Message-type constant for server errors (stt.go). -/
def msgTypeError : String := "error"

/-- Message-type constant for the end-of-stream sentinel (stt.go). -/
def msgTypeEndOfStream : String := "end_of_stream"

/-- A buffered Go channel as seen from the dispatcher side: FIFO buffer,
capacity, closed flag, and a count of `close` operations performed on
it (so that "closed exactly once" is a provable statement). -/
structure BChan (α : Type) where
  buf : List α
  cap : Nat
  closed : Bool
  closeCount : Nat
deriving DecidableEq, Repr

/-- `select { case ch <- x: default: }`: non-blocking send that drops
`x` when the buffer is at capacity. -/
def BChan.trySend {α : Type} (c : BChan α) (x : α) : BChan α :=
  if c.buf.length < c.cap then { c with buf := c.buf ++ [x] } else c

/-- `close(ch)`. -/
def BChan.doClose {α : Type} (c : BChan α) : BChan α :=
  { c with closed := true, closeCount := c.closeCount + 1 }

/-- Tags recording, in order, which channel-close operations the
dispatcher has performed (the deferred closes at loop exit). -/
inductive CloseTag where
  | ttsAudio
  | ttsDone
  | sttAllMsg
  | sttEndText
  | sttVad
  | sttText
  | sttDone
deriving DecidableEq, Repr

/-- An inbound TTS frame after the decodes `handleMessages` performs on
its raw bytes.  `msgType` is the tag from the `wsMessage` unmarshal;
the other fields are the outcomes of the tag-specific decodes: `none`
where the Go code checks the unmarshal/decode error and discards, the
zero-value-on-failure struct where the Go code ignores the error. -/
structure TTSFrame where
  msgType : String
  readyMsg : TTSReadyMessage
  audioMsg : Option TTSAudioMessage
  errorMsg : TTSErrorMessage
  audioBytes : Option (List Nat)
deriving DecidableEq, Repr

/-- One iteration's input to the TTS dispatcher: either
`conn.ReadMessage` fails, or it yields a frame whose top-level
`wsMessage` unmarshal either fails (`none`) or yields a `TTSFrame`. -/
inductive TTSInEvent where
  | readError (msg : String)
  | frame (decoded : Option TTSFrame)
deriving DecidableEq, Repr

/-- Dispatcher-visible state of a `TTSStream` (tts.go): request id, the
`ready` one-shot channel (with close count), the local `readySignaled`
flag, the error register, the audio result channel, the `done` channel,
and the ordered log of channel closes. -/
structure TTSState where
  requestID : String
  readySignaled : Bool
  readyClosed : Bool
  readyCloseCount : Nat
  err : Option WebSocketError
  audioCh : BChan (List Nat)
  doneClosed : Bool
  doneCloseCount : Nat
  closeLog : List CloseTag
deriving DecidableEq, Repr

/-- `TTSStream.setError`: write-once error register (the register keeps
its first value; `e` lands only when the register is still empty). -/
def TTSState.setErrorReg (s : TTSState) (e : WebSocketError) : TTSState :=
  { s with err := match s.err with | none => some e | some e0 => some e0 }

/-- `close(s.ready)` on the TTS stream. -/
def TTSState.closeReady (s : TTSState) : TTSState :=
  { s with readyClosed := true, readyCloseCount := s.readyCloseCount + 1 }

/-- What one decoded transport event makes the TTS dispatcher do:
mirrors the decode-and-dispatch part of `TTSStream.handleMessages`
(the `switch msg.Type` with its per-case unmarshals and the base64
decode of audio payloads). -/
inductive TTSAction where
  | discard
  | doReady (requestID : String)
  | publish (bytes : List Nat)
  | stopEOS
  | stopError (e : WebSocketError)
  | stopRead (e : WebSocketError)
deriving DecidableEq, Repr

/-- Classification of one transport event, following
`TTSStream.handleMessages` line by line: read failures become
connection errors; a failed top-level unmarshal is a discard; then the
tag dispatch with its per-case payload handling. -/
def ttsClassify (ev : TTSInEvent) : TTSAction :=
  match ev with
  | .readError m => .stopRead ⟨"read error: " ++ m, 0⟩
  | .frame none => .discard
  | .frame (some f) =>
    if f.msgType = msgTypeReady then
      .doReady f.readyMsg.requestID
    else if f.msgType = "audio" then
      match f.audioMsg with
      | none => .discard
      | some _ =>
        match f.audioBytes with
        | none => .discard
        | some decoded => .publish decoded
    else if f.msgType = msgTypeEndOfStream then
      .stopEOS
    else if f.msgType = msgTypeError then
      .stopError ⟨f.errorMsg.message, f.errorMsg.code⟩
    else
      .discard

/-- Effect of one classified action on the TTS dispatcher state,
mirroring the corresponding branch bodies of
`TTSStream.handleMessages`; the `Bool` is true when the loop returns. -/
def ttsApply (s : TTSState) (a : TTSAction) : TTSState × Bool :=
  match a with
  | .discard => (s, false)
  | .doReady rid =>
    (if s.readySignaled then { s with requestID := rid }
     else { (TTSState.closeReady { s with requestID := rid }) with readySignaled := true },
     false)
  | .publish bytes => ({ s with audioCh := s.audioCh.trySend bytes }, false)
  | .stopEOS => (s, true)
  | .stopError e =>
    (if s.readySignaled then s.setErrorReg e else (s.setErrorReg e).closeReady, true)
  | .stopRead e =>
    (if s.readySignaled then s.setErrorReg e else (s.setErrorReg e).closeReady, true)

/-- One iteration of the TTS dispatcher loop. -/
def ttsStep (s : TTSState) (ev : TTSInEvent) : TTSState × Bool :=
  ttsApply s (ttsClassify ev)

/-- The TTS dispatcher read loop over a finite prefix of transport
events; the `Bool` is true when the loop returned (terminal event seen)
and false when the event list was exhausted with the loop still
reading. -/
def ttsLoop (s : TTSState) : List TTSInEvent → TTSState × Bool
  | [] => (s, false)
  | ev :: rest =>
    let r := ttsStep s ev
    if r.2 then (r.1, true) else ttsLoop r.1 rest

/-- The deferred closes of `TTSStream.handleMessages`, in execution
(LIFO) order: `close(s.audioCh)` first, then `close(s.done)`. -/
def ttsDefers (s : TTSState) : TTSState :=
  let s := { s with audioCh := s.audioCh.doClose,
                    closeLog := s.closeLog ++ [CloseTag.ttsAudio] }
  { s with doneClosed := true, doneCloseCount := s.doneCloseCount + 1,
           closeLog := s.closeLog ++ [CloseTag.ttsDone] }

/-- Initial `TTSStream` state as built by `TTSService.Stream`: fresh
channels, the audio channel with capacity 100. -/
def ttsStreamInit : TTSState :=
  { requestID := ""
    readySignaled := false
    readyClosed := false
    readyCloseCount := 0
    err := none
    audioCh := { buf := [], cap := 100, closed := false, closeCount := 0 }
    doneClosed := false
    doneCloseCount := 0
    closeLog := [] }

/-- A whole dispatcher execution on a transport event trace: run the
loop from the fresh stream state; if (and only if) the loop returned,
the deferred closes run. -/
def ttsRun (evs : List TTSInEvent) : TTSState × Bool :=
  let r := ttsLoop ttsStreamInit evs
  (if r.2 then ttsDefers r.1 else r.1, r.2)

/-- `TTSStream.WaitReady`, as a function of the stream state at the
moment of the call: `some outcome` when the `ready` channel is closed
(the select's first arm), `none` when the call would still be blocked
(so only the caller's context deadline could end it). -/
def ttsWaitReady (s : TTSState) : Option (Option WebSocketError) :=
  if s.readyClosed then some s.err else none

/-- The chunk-concatenation of `TTSStream.Collect`: the sequential
`copy` loop over the accumulated chunks, i.e. a left fold of append. -/
def concatChunks (chunks : List (List Nat)) : List Nat :=
  chunks.foldl (fun acc c => acc ++ c) []

/-- `TTSStream.Collect`, as a function of the chunks the audio channel
delivered before closing, the error register at closure, and the
request id: on closure, a set register is returned as the error;
otherwise the chunks are concatenated in arrival order and returned
with the constant sample rate 48000. -/
def ttsCollect (delivered : List (List Nat)) (err : Option WebSocketError)
    (requestID : String) : Except WebSocketError TTSResult :=
  match err with
  | some e => .error e
  | none =>
    .ok { rawData := concatChunks delivered
          sampleRate := 48000
          requestID := requestID }

/-- State of a stream's `closeOnce` / connection pair, for
`TTSStream.Close` and `STTStream.Close`: whether the `sync.Once` has
fired, and how many times the underlying connection was released. -/
structure CloseState where
  onceDone : Bool
  connReleaseCount : Nat
deriving DecidableEq, Repr

/-- Fresh `CloseState` of a just-opened stream. -/
def closeStateInit : CloseState :=
  { onceDone := false, connReleaseCount := 0 }

/-- `Close` (identical in tts.go and stt.go): `var err error` stays nil
unless `closeOnce.Do` actually runs the body, which releases the
connection and stores `conn.Close()`'s result (`connResult`, supplied
by the transport collaborator) into `err`. -/
def streamClose (st : CloseState) (connResult : Option WebSocketError) :
    Option WebSocketError × CloseState :=
  if st.onceDone then (none, st)
  else (connResult, { onceDone := true, connReleaseCount := st.connReleaseCount + 1 })

/-- Repeated `Close` calls, each with the result the transport would
return were the connection actually closed at that call. -/
def streamCloseMany (st : CloseState) : List (Option WebSocketError) → CloseState
  | [] => st
  | r :: rs => streamCloseMany (streamClose st r).2 rs

/-- An inbound STT frame after the decodes `STTStream.handleMessages`
performs on its raw bytes, with the same conventions as `TTSFrame`. -/
structure STTFrame where
  msgType : String
  readyMsg : STTReadyMessage
  textMsg : Option STTTextMessage
  stepMsg : Option STTStepMessage
  endTextMsg : Option STTEndTextMessage
  errorMsg : STTErrorMessage
deriving DecidableEq, Repr

/-- One iteration's input to the STT dispatcher. -/
inductive STTInEvent where
  | readError (msg : String)
  | frame (decoded : Option STTFrame)
deriving DecidableEq, Repr

/-- Dispatcher-visible state of an `STTStream` (stt.go): ready info and
the `ready` one-shot channel, the error register, the four result
channels, the `done` channel, and the ordered log of channel closes. -/
structure STTState where
  readyInfo : Option STTReadyInfo
  readySignaled : Bool
  readyClosed : Bool
  readyCloseCount : Nat
  err : Option WebSocketError
  textCh : BChan STTTextResult
  vadCh : BChan STTStepResult
  endTextCh : BChan STTEndTextResult
  allMsgCh : BChan STTAnyResult
  doneClosed : Bool
  doneCloseCount : Nat
  closeLog : List CloseTag
deriving DecidableEq, Repr

/-- `STTStream.setError`: write-once error register (the register keeps
its first value; `e` lands only when the register is still empty). -/
def STTState.setErrorReg (s : STTState) (e : WebSocketError) : STTState :=
  { s with err := match s.err with | none => some e | some e0 => some e0 }

/-- `close(s.ready)` on the STT stream. -/
def STTState.closeReady (s : STTState) : STTState :=
  { s with readyClosed := true, readyCloseCount := s.readyCloseCount + 1 }

/-- What one decoded transport event makes the STT dispatcher do,
mirroring the decode-and-dispatch part of `STTStream.handleMessages`. -/
inductive STTAction where
  | discard
  | doReady (info : STTReadyInfo)
  | publishText (r : STTTextResult)
  | publishStep (r : STTStepResult)
  | publishEndText (r : STTEndTextResult)
  | stopEOS
  | stopError (e : WebSocketError)
  | stopRead (e : WebSocketError)
deriving DecidableEq, Repr

/-- Classification of one transport event, following
`STTStream.handleMessages` line by line. -/
def sttClassify (ev : STTInEvent) : STTAction :=
  match ev with
  | .readError m => .stopRead ⟨"read error: " ++ m, 0⟩
  | .frame none => .discard
  | .frame (some f) =>
    if f.msgType = msgTypeReady then
      .doReady { requestID := f.readyMsg.requestID
                 modelName := f.readyMsg.modelName
                 sampleRate := f.readyMsg.sampleRate
                 frameSize := f.readyMsg.frameSize
                 delayInTokens := f.readyMsg.delayInTokens
                 textStreamNames := f.readyMsg.textStreamNames }
    else if f.msgType = "text" then
      match f.textMsg with
      | none => .discard
      | some tm => .publishText ⟨tm.text, tm.startS, tm.streamID⟩
    else if f.msgType = "step" then
      match f.stepMsg with
      | none => .discard
      | some sm => .publishStep ⟨sm.vad, sm.stepIdx, sm.stepDurationS, sm.totalDurationS⟩
    else if f.msgType = "end_text" then
      match f.endTextMsg with
      | none => .discard
      | some em => .publishEndText ⟨em.stopS, em.streamID⟩
    else if f.msgType = msgTypeEndOfStream then
      .stopEOS
    else if f.msgType = msgTypeError then
      .stopError ⟨f.errorMsg.message, f.errorMsg.code⟩
    else
      .discard

/-- Effect of one classified action on the STT dispatcher state,
mirroring the branch bodies of `STTStream.handleMessages`: each
structured item is try-sent to its category channel and then to the
unified feed channel, each non-blocking and independently droppable. -/
def sttApply (s : STTState) (a : STTAction) : STTState × Bool :=
  match a with
  | .discard => (s, false)
  | .doReady info =>
    (if s.readySignaled then { s with readyInfo := some info }
     else { (STTState.closeReady { s with readyInfo := some info }) with readySignaled := true },
     false)
  | .publishText r =>
    ({ s with textCh := s.textCh.trySend r, allMsgCh := s.allMsgCh.trySend (.text r) }, false)
  | .publishStep r =>
    ({ s with vadCh := s.vadCh.trySend r, allMsgCh := s.allMsgCh.trySend (.step r) }, false)
  | .publishEndText r =>
    ({ s with endTextCh := s.endTextCh.trySend r, allMsgCh := s.allMsgCh.trySend (.endText r) }, false)
  | .stopEOS => (s, true)
  | .stopError e =>
    (if s.readySignaled then s.setErrorReg e else (s.setErrorReg e).closeReady, true)
  | .stopRead e =>
    (if s.readySignaled then s.setErrorReg e else (s.setErrorReg e).closeReady, true)

/-- One iteration of the STT dispatcher loop. -/
def sttStep (s : STTState) (ev : STTInEvent) : STTState × Bool :=
  sttApply s (sttClassify ev)

/-- The STT dispatcher read loop over a finite prefix of transport
events. -/
def sttLoop (s : STTState) : List STTInEvent → STTState × Bool
  | [] => (s, false)
  | ev :: rest =>
    let r := sttStep s ev
    if r.2 then (r.1, true) else sttLoop r.1 rest

/-- The deferred closes of `STTStream.handleMessages`, in execution
(LIFO) order: `allMsgCh`, `endTextCh`, `vadCh`, `textCh`, `done`. -/
def sttDefers (s : STTState) : STTState :=
  let s := { s with allMsgCh := s.allMsgCh.doClose,
                    closeLog := s.closeLog ++ [CloseTag.sttAllMsg] }
  let s := { s with endTextCh := s.endTextCh.doClose,
                    closeLog := s.closeLog ++ [CloseTag.sttEndText] }
  let s := { s with vadCh := s.vadCh.doClose,
                    closeLog := s.closeLog ++ [CloseTag.sttVad] }
  let s := { s with textCh := s.textCh.doClose,
                    closeLog := s.closeLog ++ [CloseTag.sttText] }
  { s with doneClosed := true, doneCloseCount := s.doneCloseCount + 1,
           closeLog := s.closeLog ++ [CloseTag.sttDone] }

/-- Initial `STTStream` state as built by `STTService.Stream`: fresh
channels with capacities 100 (text), 100 (vad), 10 (endText),
100 (allMsg). -/
def sttStreamInit : STTState :=
  { readyInfo := none
    readySignaled := false
    readyClosed := false
    readyCloseCount := 0
    err := none
    textCh := { buf := [], cap := 100, closed := false, closeCount := 0 }
    vadCh := { buf := [], cap := 100, closed := false, closeCount := 0 }
    endTextCh := { buf := [], cap := 10, closed := false, closeCount := 0 }
    allMsgCh := { buf := [], cap := 100, closed := false, closeCount := 0 }
    doneClosed := false
    doneCloseCount := 0
    closeLog := [] }

/-- A whole STT dispatcher execution on a transport event trace. -/
def sttRun (evs : List STTInEvent) : STTState × Bool :=
  let r := sttLoop sttStreamInit evs
  (if r.2 then sttDefers r.1 else r.1, r.2)

/-- `STTStream.WaitReady`, as a function of the stream state at the
call: `some outcome` when the `ready` channel is closed; the outcome is
the registered error if set, else the captured ready info. -/
def sttWaitReady (s : STTState) : Option (Except WebSocketError (Option STTReadyInfo)) :=
  if s.readyClosed then
    match s.err with
    | some e => some (.error e)
    | none => some (.ok s.readyInfo)
  else none

/-- The drain loop of `STTStream.CollectText`: accumulate each received
segment's text, in arrival order. -/
def collectTextLoop (delivered : List STTTextResult) (texts : List String) : List String :=
  match delivered with
  | [] => texts
  | t :: rest => collectTextLoop rest (texts ++ [t.text])

/-- `STTStream.CollectText`, as a function of the segments the text
channel delivered before closing and the error register at closure: a
set register is returned as the error; otherwise the segment texts are
joined with a single space (`strings.Join(texts, " ")`). -/
def sttCollectText (delivered : List STTTextResult) (err : Option WebSocketError) :
    Except WebSocketError String :=
  match err with
  | some e => .error e
  | none => .ok (String.intercalate " " (collectTextLoop delivered []))

/-- Spec-side predicate (C1's wording): the trace contains a trigger for
the readiness gate — a first Ready envelope, or a first server Error
envelope or transport read failure occurring before any Ready envelope
(and before the end-of-stream sentinel stops the dispatcher). -/
def ttsGateTrigger : List TTSInEvent → Bool
  | [] => false
  | ev :: rest =>
    match ttsClassify ev with
    | .doReady _ => true
    | .stopError _ => true
    | .stopRead _ => true
    | .stopEOS => false
    | .discard => ttsGateTrigger rest
    | .publish _ => ttsGateTrigger rest

/-- Spec-side predicate (C1's wording), STT direction. -/
def sttGateTrigger : List STTInEvent → Bool
  | [] => false
  | ev :: rest =>
    match sttClassify ev with
    | .doReady _ => true
    | .stopError _ => true
    | .stopRead _ => true
    | .stopEOS => false
    | .discard => sttGateTrigger rest
    | .publishText _ => sttGateTrigger rest
    | .publishStep _ => sttGateTrigger rest
    | .publishEndText _ => sttGateTrigger rest

/-- A concrete end-of-stream transport event for a TTS session, used by
witness theorems. -/
def ttsEOSEvent : TTSInEvent :=
  .frame (some ⟨"end_of_stream", ⟨""⟩, none, ⟨"", 0⟩, none⟩)

/-- A concrete end-of-stream transport event for an STT session, used by
witness theorems. -/
def sttEOSEvent : STTInEvent :=
  .frame (some ⟨"end_of_stream", ⟨"", "", 0, 0, 0, []⟩, none, none, none, ⟨"", 0⟩⟩)

/-- Concrete STT server-error transport event (message "bad", code 500),
used by witness theorems. -/
def sttErrEvent : STTInEvent :=
  .frame (some ⟨"error", ⟨"", "", 0, 0, 0, []⟩, none, none, none, ⟨"bad", 500⟩⟩)

/-- Concrete TTS ready frame (request id "r1") for witness theorems. -/
def ttsReadyFrame : TTSFrame := ⟨"ready", ⟨"r1"⟩, none, ⟨"", 0⟩, none⟩

/-- Concrete TTS audio frame carrying base64 "YWI=" = bytes "ab". -/
def ttsAudioFrameAB : TTSFrame := ⟨"audio", ⟨""⟩, some ⟨"YWI="⟩, ⟨"", 0⟩, some [97, 98]⟩

/-- Concrete TTS audio frame carrying base64 "Y2Q=" = bytes "cd". -/
def ttsAudioFrameCD : TTSFrame := ⟨"audio", ⟨""⟩, some ⟨"Y2Q="⟩, ⟨"", 0⟩, some [99, 100]⟩

/-- Concrete TTS server-error frame (message "boom", code 400). -/
def ttsErrorFrame : TTSFrame := ⟨"error", ⟨""⟩, none, ⟨"boom", 400⟩, none⟩

@[simp] lemma BChan.trySend_closed {α : Type} (c : BChan α) (x : α) :
    (c.trySend x).closed = c.closed := by
  unfold BChan.trySend; split <;> rfl

@[simp] lemma BChan.trySend_closeCount {α : Type} (c : BChan α) (x : α) :
    (c.trySend x).closeCount = c.closeCount := by
  unfold BChan.trySend; split <;> rfl

@[simp] lemma BChan.trySend_cap {α : Type} (c : BChan α) (x : α) :
    (c.trySend x).cap = c.cap := by
  unfold BChan.trySend; split <;> rfl

lemma BChan.trySend_of_full {α : Type} (c : BChan α) (x : α)
    (h : c.cap ≤ c.buf.length) : c.trySend x = c := by
  unfold BChan.trySend
  rw [if_neg (by omega)]

lemma BChan.trySend_of_not_full {α : Type} (c : BChan α) (x : α)
    (h : c.buf.length < c.cap) : (c.trySend x).buf = c.buf ++ [x] := by
  unfold BChan.trySend
  rw [if_pos h]

lemma ttsLoop_gate (evs : List TTSInEvent) :
    ∀ s : TTSState, s.readySignaled = s.readyClosed →
      s.readyCloseCount = (if s.readyClosed then 1 else 0) →
      (ttsLoop s evs).1.readyCloseCount =
        (if s.readyClosed then 1 else if ttsGateTrigger evs then 1 else 0) := by
  induction evs with
  | nil =>
    intro s h1 h2
    simpa [ttsLoop, ttsGateTrigger] using h2
  | cons ev rest ih =>
    intro s h1 h2
    cases hs : s.readySignaled with
    | true =>
      have hcl : s.readyClosed = true := by rw [← h1]; exact hs
      have h2' : s.readyCloseCount = 1 := by simp [h2, hcl]
      simp only [hcl, if_true]
      simp only [ttsLoop, ttsStep]
      cases hc : ttsClassify ev with
      | discard =>
        simp only [ttsApply, hc]
        simpa [hcl] using ih s h1 h2
      | doReady rid =>
        simp only [ttsApply, hc, hs, if_true]
        simpa [hs, hcl] using ih { s with requestID := rid } h1 h2
      | publish bytes =>
        simp only [ttsApply, hc]
        simpa [hcl] using ih { s with audioCh := s.audioCh.trySend bytes } h1 h2
      | stopEOS =>
        simp only [ttsApply, hc]
        simpa using h2'
      | stopError e =>
        simp only [ttsApply, hc, hs, if_true]
        simpa [TTSState.setErrorReg] using h2'
      | stopRead e =>
        simp only [ttsApply, hc, hs, if_true]
        simpa [TTSState.setErrorReg] using h2'
    | false =>
      have hcl : s.readyClosed = false := by rw [← h1]; exact hs
      have h2' : s.readyCloseCount = 0 := by simp [h2, hcl]
      simp only [hcl, Bool.false_eq_true, if_false]
      simp only [ttsLoop, ttsStep]
      cases hc : ttsClassify ev with
      | discard =>
        simp only [ttsApply, hc, ttsGateTrigger]
        simpa [hcl] using ih s h1 h2
      | doReady rid =>
        simp only [ttsApply, hc, hs, ttsGateTrigger, Bool.false_eq_true, if_false, if_true]
        have := ih { (TTSState.closeReady { s with requestID := rid }) with readySignaled := true } rfl (by simp [TTSState.closeReady, h2'])
        simpa [TTSState.closeReady] using this
      | publish bytes =>
        simp only [ttsApply, hc, ttsGateTrigger]
        simpa [hcl] using ih { s with audioCh := s.audioCh.trySend bytes } h1 h2
      | stopEOS =>
        simp only [ttsApply, hc, ttsGateTrigger]
        simpa using h2'
      | stopError e =>
        simp only [ttsApply, hc, hs, ttsGateTrigger, Bool.false_eq_true, if_false]
        simp [TTSState.setErrorReg, TTSState.closeReady, h2']
      | stopRead e =>
        simp only [ttsApply, hc, hs, ttsGateTrigger, Bool.false_eq_true, if_false]
        simp [TTSState.setErrorReg, TTSState.closeReady, h2']

lemma sttLoop_gate (evs : List STTInEvent) :
    ∀ s : STTState, s.readySignaled = s.readyClosed →
      s.readyCloseCount = (if s.readyClosed then 1 else 0) →
      (sttLoop s evs).1.readyCloseCount =
        (if s.readyClosed then 1 else if sttGateTrigger evs then 1 else 0) := by
  induction evs with
  | nil =>
    intro s h1 h2
    simpa [sttLoop, sttGateTrigger] using h2
  | cons ev rest ih =>
    intro s h1 h2
    cases hs : s.readySignaled with
    | true =>
      have hcl : s.readyClosed = true := by rw [← h1]; exact hs
      have h2' : s.readyCloseCount = 1 := by simp [h2, hcl]
      simp only [hcl, if_true]
      simp only [sttLoop, sttStep]
      cases hc : sttClassify ev with
      | discard =>
        simp only [sttApply, hc]
        simpa [hcl] using ih s h1 h2
      | doReady info =>
        simp only [sttApply, hc, hs, if_true]
        simpa [hs, hcl] using ih { s with readyInfo := some info } h1 h2
      | publishText r =>
        simp only [sttApply, hc]
        simpa [hcl] using ih { s with textCh := s.textCh.trySend r, allMsgCh := s.allMsgCh.trySend (.text r) } h1 h2
      | publishStep r =>
        simp only [sttApply, hc]
        simpa [hcl] using ih { s with vadCh := s.vadCh.trySend r, allMsgCh := s.allMsgCh.trySend (.step r) } h1 h2
      | publishEndText r =>
        simp only [sttApply, hc]
        simpa [hcl] using ih { s with endTextCh := s.endTextCh.trySend r, allMsgCh := s.allMsgCh.trySend (.endText r) } h1 h2
      | stopEOS =>
        simp only [sttApply, hc]
        simpa using h2'
      | stopError e =>
        simp only [sttApply, hc, hs, if_true]
        simpa [STTState.setErrorReg] using h2'
      | stopRead e =>
        simp only [sttApply, hc, hs, if_true]
        simpa [STTState.setErrorReg] using h2'
    | false =>
      have hcl : s.readyClosed = false := by rw [← h1]; exact hs
      have h2' : s.readyCloseCount = 0 := by simp [h2, hcl]
      simp only [hcl, Bool.false_eq_true, if_false]
      simp only [sttLoop, sttStep]
      cases hc : sttClassify ev with
      | discard =>
        simp only [sttApply, hc, sttGateTrigger]
        simpa [hcl] using ih s h1 h2
      | doReady info =>
        simp only [sttApply, hc, hs, sttGateTrigger, Bool.false_eq_true, if_false, if_true]
        have := ih { (STTState.closeReady { s with readyInfo := some info }) with readySignaled := true } rfl (by simp [STTState.closeReady, h2'])
        simpa [STTState.closeReady] using this
      | publishText r =>
        simp only [sttApply, hc, sttGateTrigger]
        simpa [hcl] using ih { s with textCh := s.textCh.trySend r, allMsgCh := s.allMsgCh.trySend (.text r) } h1 h2
      | publishStep r =>
        simp only [sttApply, hc, sttGateTrigger]
        simpa [hcl] using ih { s with vadCh := s.vadCh.trySend r, allMsgCh := s.allMsgCh.trySend (.step r) } h1 h2
      | publishEndText r =>
        simp only [sttApply, hc, sttGateTrigger]
        simpa [hcl] using ih { s with endTextCh := s.endTextCh.trySend r, allMsgCh := s.allMsgCh.trySend (.endText r) } h1 h2
      | stopEOS =>
        simp only [sttApply, hc, sttGateTrigger]
        simpa using h2'
      | stopError e =>
        simp only [sttApply, hc, hs, sttGateTrigger, Bool.false_eq_true, if_false]
        simp [STTState.setErrorReg, STTState.closeReady, h2']
      | stopRead e =>
        simp only [sttApply, hc, hs, sttGateTrigger, Bool.false_eq_true, if_false]
        simp [STTState.setErrorReg, STTState.closeReady, h2']

@[simp] lemma ttsDefers_readyCloseCount (s : TTSState) :
    (ttsDefers s).readyCloseCount = s.readyCloseCount := rfl

@[simp] lemma sttDefers_readyCloseCount (s : STTState) :
    (sttDefers s).readyCloseCount = s.readyCloseCount := rfl

lemma ttsRun_readyCloseCount (evs : List TTSInEvent) :
    (ttsRun evs).1.readyCloseCount = (if ttsGateTrigger evs then 1 else 0) := by
  have h := ttsLoop_gate evs ttsStreamInit rfl rfl
  simp only [ttsStreamInit] at h
  simp only [ttsRun]
  cases h2 : (ttsLoop ttsStreamInit evs).2 with
  | false => simpa [h2, ttsStreamInit] using h
  | true => simpa [h2, ttsStreamInit, ttsDefers] using h

lemma sttRun_readyCloseCount (evs : List STTInEvent) :
    (sttRun evs).1.readyCloseCount = (if sttGateTrigger evs then 1 else 0) := by
  have h := sttLoop_gate evs sttStreamInit rfl rfl
  simp only [sttStreamInit] at h
  simp only [sttRun]
  cases h2 : (sttLoop sttStreamInit evs).2 with
  | false => simpa [h2, sttStreamInit] using h
  | true => simpa [h2, sttStreamInit, sttDefers] using h

lemma ttsLoop_no_close (evs : List TTSInEvent) :
    ∀ s : TTSState,
      (ttsLoop s evs).1.audioCh.closeCount = s.audioCh.closeCount ∧
      (ttsLoop s evs).1.audioCh.closed = s.audioCh.closed ∧
      (ttsLoop s evs).1.doneCloseCount = s.doneCloseCount ∧
      (ttsLoop s evs).1.doneClosed = s.doneClosed ∧
      (ttsLoop s evs).1.closeLog = s.closeLog := by
  induction evs with
  | nil => intro s; simp [ttsLoop]
  | cons ev rest ih =>
    intro s
    simp only [ttsLoop, ttsStep]
    cases hc : ttsClassify ev with
    | discard =>
      simpa [ttsApply, hc] using ih s
    | doReady rid =>
      cases hs : s.readySignaled with
      | true =>
        simpa [ttsApply, hc, hs] using ih { s with requestID := rid }
      | false =>
        simpa [ttsApply, hc, hs, TTSState.closeReady] using ih { (TTSState.closeReady { s with requestID := rid }) with readySignaled := true }
    | publish bytes =>
      simpa [ttsApply, hc] using ih { s with audioCh := s.audioCh.trySend bytes }
    | stopEOS =>
      simp [ttsApply, hc]
    | stopError e =>
      cases hs : s.readySignaled <;> simp [ttsApply, hc, hs, TTSState.setErrorReg, TTSState.closeReady]
    | stopRead e =>
      cases hs : s.readySignaled <;> simp [ttsApply, hc, hs, TTSState.setErrorReg, TTSState.closeReady]

lemma sttLoop_no_close (evs : List STTInEvent) :
    ∀ s : STTState,
      (sttLoop s evs).1.textCh.closeCount = s.textCh.closeCount ∧
      (sttLoop s evs).1.vadCh.closeCount = s.vadCh.closeCount ∧
      (sttLoop s evs).1.endTextCh.closeCount = s.endTextCh.closeCount ∧
      (sttLoop s evs).1.allMsgCh.closeCount = s.allMsgCh.closeCount ∧
      (sttLoop s evs).1.doneCloseCount = s.doneCloseCount ∧
      (sttLoop s evs).1.closeLog = s.closeLog := by
  induction evs with
  | nil => intro s; simp [sttLoop]
  | cons ev rest ih =>
    intro s
    simp only [sttLoop, sttStep]
    cases hc : sttClassify ev with
    | discard =>
      simpa [sttApply, hc] using ih s
    | doReady info =>
      cases hs : s.readySignaled with
      | true =>
        simpa [sttApply, hc, hs] using ih { s with readyInfo := some info }
      | false =>
        simpa [sttApply, hc, hs, STTState.closeReady] using ih { (STTState.closeReady { s with readyInfo := some info }) with readySignaled := true }
    | publishText r =>
      simpa [sttApply, hc] using ih { s with textCh := s.textCh.trySend r, allMsgCh := s.allMsgCh.trySend (.text r) }
    | publishStep r =>
      simpa [sttApply, hc] using ih { s with vadCh := s.vadCh.trySend r, allMsgCh := s.allMsgCh.trySend (.step r) }
    | publishEndText r =>
      simpa [sttApply, hc] using ih { s with endTextCh := s.endTextCh.trySend r, allMsgCh := s.allMsgCh.trySend (.endText r) }
    | stopEOS =>
      simp [sttApply, hc]
    | stopError e =>
      cases hs : s.readySignaled <;> simp [sttApply, hc, hs, STTState.setErrorReg, STTState.closeReady]
    | stopRead e =>
      cases hs : s.readySignaled <;> simp [sttApply, hc, hs, STTState.setErrorReg, STTState.closeReady]

/-- C1: for every session (TTS or STT), the ready channel is closed
exactly once when the trace contains a gate trigger — a first Ready
envelope, or a first server Error envelope or transport read failure
preceding any Ready envelope — and zero times otherwise; in particular
it is never closed twice, for any sequence of inbound transport
events. -/
theorem spec_C1 (evsT : List TTSInEvent) (evsS : List STTInEvent) :
    ((ttsRun evsT).1.readyCloseCount = (if ttsGateTrigger evsT then 1 else 0)) ∧
    (ttsRun evsT).1.readyCloseCount ≤ 1 ∧
    ((sttRun evsS).1.readyCloseCount = (if sttGateTrigger evsS then 1 else 0)) ∧
    (sttRun evsS).1.readyCloseCount ≤ 1 := by
  refine ⟨ttsRun_readyCloseCount evsT, ?_, sttRun_readyCloseCount evsS, ?_⟩
  · rw [ttsRun_readyCloseCount evsT]; split <;> omega
  · rw [sttRun_readyCloseCount evsS]; split <;> omega

/-- C2: while the dispatcher is still reading, no result channel and no
done signal has been closed (close counts zero, empty close log); on any
terminated run, every result channel is closed exactly once and the done
signal fires exactly once, with every result-channel close preceding the
done close (the close log is exactly the deferred-close sequence, done
last). -/
theorem spec_C2 (evsT : List TTSInEvent) (evsS : List STTInEvent) :
    ((ttsRun evsT).2 = true →
       (ttsRun evsT).1.audioCh.closeCount = 1 ∧
       (ttsRun evsT).1.doneCloseCount = 1 ∧
       (ttsRun evsT).1.closeLog = [CloseTag.ttsAudio, CloseTag.ttsDone]) ∧
    ((ttsRun evsT).2 = false →
       (ttsRun evsT).1.audioCh.closeCount = 0 ∧
       (ttsRun evsT).1.doneCloseCount = 0 ∧
       (ttsRun evsT).1.closeLog = []) ∧
    ((sttRun evsS).2 = true →
       (sttRun evsS).1.textCh.closeCount = 1 ∧
       (sttRun evsS).1.vadCh.closeCount = 1 ∧
       (sttRun evsS).1.endTextCh.closeCount = 1 ∧
       (sttRun evsS).1.allMsgCh.closeCount = 1 ∧
       (sttRun evsS).1.doneCloseCount = 1 ∧
       (sttRun evsS).1.closeLog =
         [CloseTag.sttAllMsg, CloseTag.sttEndText, CloseTag.sttVad, CloseTag.sttText, CloseTag.sttDone]) ∧
    ((sttRun evsS).2 = false →
       (sttRun evsS).1.textCh.closeCount = 0 ∧
       (sttRun evsS).1.vadCh.closeCount = 0 ∧
       (sttRun evsS).1.endTextCh.closeCount = 0 ∧
       (sttRun evsS).1.allMsgCh.closeCount = 0 ∧
       (sttRun evsS).1.doneCloseCount = 0 ∧
       (sttRun evsS).1.closeLog = []) := by
  obtain ⟨hT1, hT2, hT3, hT4, hT5⟩ := ttsLoop_no_close evsT ttsStreamInit
  obtain ⟨hS1, hS2, hS3, hS4, hS5, hS6⟩ := sttLoop_no_close evsS sttStreamInit
  refine ⟨?_, ?_, ?_, ?_⟩
  · intro hstop
    have hstop' : (ttsLoop ttsStreamInit evsT).2 = true := by
      simpa [ttsRun] using hstop
    simp only [ttsRun, hstop', if_true]
    simp only [ttsStreamInit] at hT1 hT3 hT5
    simp [ttsDefers, BChan.doClose, hT1, hT3, hT5, ttsStreamInit]
  · intro hstop
    have hstop' : (ttsLoop ttsStreamInit evsT).2 = false := by
      simpa [ttsRun] using hstop
    simp only [ttsRun, hstop', Bool.false_eq_true, if_false]
    simp only [ttsStreamInit] at hT1 hT3 hT5
    simp [hT1, hT3, hT5, ttsStreamInit]
  · intro hstop
    have hstop' : (sttLoop sttStreamInit evsS).2 = true := by
      simpa [sttRun] using hstop
    simp only [sttRun, hstop', if_true]
    simp only [sttStreamInit] at hS1 hS2 hS3 hS4 hS5 hS6
    simp [sttDefers, BChan.doClose, hS1, hS2, hS3, hS4, hS5, hS6, sttStreamInit]
  · intro hstop
    have hstop' : (sttLoop sttStreamInit evsS).2 = false := by
      simpa [sttRun] using hstop
    simp only [sttRun, hstop', Bool.false_eq_true, if_false]
    simp only [sttStreamInit] at hS1 hS2 hS3 hS4 hS5 hS6
    simp [hS1, hS2, hS3, hS4, hS5, hS6, sttStreamInit]

/-- Witness for C2 at a concrete terminated run (an end-of-stream frame)
on each session kind. -/
theorem spec_C2_witness :
    ((ttsRun [ttsEOSEvent]).1.closeLog = [CloseTag.ttsAudio, CloseTag.ttsDone]) ∧
    ((sttRun [sttEOSEvent]).1.closeLog =
       [CloseTag.sttAllMsg, CloseTag.sttEndText, CloseTag.sttVad, CloseTag.sttText, CloseTag.sttDone]) :=
  ⟨((spec_C2 [ttsEOSEvent] [sttEOSEvent]).1 (by decide)).2.2,
   ((spec_C2 [ttsEOSEvent] [sttEOSEvent]).2.2.1 (by decide)).2.2.2.2.2⟩

/-- C3 counterexample: the ready/error payload unmarshals in the source
ignore their error, so a ready-tagged frame whose payload failed to
parse (zero-value `readyMsg`, per the embedding's convention for the
ignored-error unmarshal) still closes the ready gate — the session
state changes — and an error-tagged frame whose payload failed to parse
still records the zero-valued error, stops the loop, and the terminated
run closes the result channels: not a silent discard as claimed. -/
theorem spec_C3_counterexample :
    (ttsStep ttsStreamInit (.frame (some ⟨"ready", ⟨""⟩, none, ⟨"", 0⟩, none⟩))).1.readyCloseCount
      = 1 ∧
    (ttsStep ttsStreamInit (.frame (some ⟨"ready", ⟨""⟩, none, ⟨"", 0⟩, none⟩))).1
      ≠ ttsStreamInit ∧
    (ttsStep ttsStreamInit (.frame (some ⟨"error", ⟨""⟩, none, ⟨"", 0⟩, none⟩))).1.err
      = some ⟨"", 0⟩ ∧
    (ttsStep ttsStreamInit (.frame (some ⟨"error", ⟨""⟩, none, ⟨"", 0⟩, none⟩))).2 = true ∧
    (ttsRun [.frame (some ⟨"error", ⟨""⟩, none, ⟨"", 0⟩, none⟩)]).1.audioCh.closeCount = 1 :=
  ⟨by decide, by decide, by decide, by decide, by decide⟩

/-- C3 amended: silent discard holds for frames whose top-level
unmarshal fails, frames with unrecognized tags, and recognized-tag
frames where the code checks the payload decode — the TTS audio and the
STT text/step/end_text payload unmarshals, and the base64 byte-decode —
all leaving the dispatcher state completely unchanged with the loop
continuing; but ready- and error-tagged frames are processed even when
their payload unmarshal fails (the error is ignored and zero values
stand in): a ready frame still resolves the gate whatever its payload
decode outcome, and an error frame still records its (possibly
zero-valued) error and terminates the session. -/
theorem spec_C3 (sT : TTSState) (sS : STTState) (f : TTSFrame) (g : STTFrame) :
    (ttsStep sT (.frame none) = (sT, false)) ∧
    (f.msgType ∉ ["ready", "audio", "end_of_stream", "error"] →
       ttsStep sT (.frame (some f)) = (sT, false)) ∧
    (f.msgType = "audio" → f.audioMsg = none →
       ttsStep sT (.frame (some f)) = (sT, false)) ∧
    (f.msgType = "audio" → f.audioBytes = none →
       ttsStep sT (.frame (some f)) = (sT, false)) ∧
    (sttStep sS (.frame none) = (sS, false)) ∧
    (g.msgType ∉ ["ready", "text", "step", "end_text", "end_of_stream", "error"] →
       sttStep sS (.frame (some g)) = (sS, false)) ∧
    (g.msgType = "text" → g.textMsg = none →
       sttStep sS (.frame (some g)) = (sS, false)) ∧
    (g.msgType = "step" → g.stepMsg = none →
       sttStep sS (.frame (some g)) = (sS, false)) ∧
    (g.msgType = "end_text" → g.endTextMsg = none →
       sttStep sS (.frame (some g)) = (sS, false)) ∧
    (f.msgType = "ready" → sT.readySignaled = false →
       (ttsStep sT (.frame (some f))).1.readyCloseCount = sT.readyCloseCount + 1 ∧
       (ttsStep sT (.frame (some f))).2 = false) ∧
    (f.msgType = "error" → sT.err = none →
       (ttsStep sT (.frame (some f))).1.err = some ⟨f.errorMsg.message, f.errorMsg.code⟩ ∧
       (ttsStep sT (.frame (some f))).2 = true) ∧
    (g.msgType = "ready" → sS.readySignaled = false →
       (sttStep sS (.frame (some g))).1.readyCloseCount = sS.readyCloseCount + 1 ∧
       (sttStep sS (.frame (some g))).2 = false) ∧
    (g.msgType = "error" → sS.err = none →
       (sttStep sS (.frame (some g))).1.err = some ⟨g.errorMsg.message, g.errorMsg.code⟩ ∧
       (sttStep sS (.frame (some g))).2 = true) := by
  refine ⟨rfl, ?_, ?_, ?_, rfl, ?_, ?_, ?_, ?_, ?_, ?_, ?_, ?_⟩
  · intro h
    simp only [List.mem_cons, List.not_mem_nil, or_false, not_or] at h
    obtain ⟨h1, h2, h3, h4⟩ := h
    simp [ttsStep, ttsClassify, ttsApply, msgTypeReady, msgTypeEndOfStream, msgTypeError,
      h1, h2, h3, h4]
  · intro hty hm
    simp [ttsStep, ttsClassify, ttsApply, msgTypeReady, msgTypeEndOfStream, msgTypeError,
      hty, hm]
  · intro hty hb
    cases hm : f.audioMsg with
    | none =>
      simp [ttsStep, ttsClassify, ttsApply, msgTypeReady, msgTypeEndOfStream, msgTypeError,
        hty, hm]
    | some am =>
      simp [ttsStep, ttsClassify, ttsApply, msgTypeReady, msgTypeEndOfStream, msgTypeError,
        hty, hm, hb]
  · intro h
    simp only [List.mem_cons, List.not_mem_nil, or_false, not_or] at h
    obtain ⟨h1, h2, h3, h4, h5, h6⟩ := h
    simp [sttStep, sttClassify, sttApply, msgTypeReady, msgTypeEndOfStream, msgTypeError,
      h1, h2, h3, h4, h5, h6]
  · intro hty hm
    simp [sttStep, sttClassify, sttApply, msgTypeReady, msgTypeEndOfStream, msgTypeError,
      hty, hm]
  · intro hty hm
    simp [sttStep, sttClassify, sttApply, msgTypeReady, msgTypeEndOfStream, msgTypeError,
      hty, hm]
  · intro hty hm
    simp [sttStep, sttClassify, sttApply, msgTypeReady, msgTypeEndOfStream, msgTypeError,
      hty, hm]
  · intro hty hsig
    constructor <;>
      simp [ttsStep, ttsClassify, ttsApply, msgTypeReady, hty, hsig, TTSState.closeReady]
  · intro hty herr
    constructor <;>
      cases hs : sT.readySignaled <;>
        simp [ttsStep, ttsClassify, ttsApply, msgTypeReady, msgTypeEndOfStream, msgTypeError,
          hty, herr, hs, TTSState.setErrorReg, TTSState.closeReady]
  · intro hty hsig
    constructor <;>
      simp [sttStep, sttClassify, sttApply, msgTypeReady, hty, hsig, STTState.closeReady]
  · intro hty herr
    constructor <;>
      cases hs : sS.readySignaled <;>
        simp [sttStep, sttClassify, sttApply, msgTypeReady, msgTypeEndOfStream, msgTypeError,
          hty, herr, hs, STTState.setErrorReg, STTState.closeReady]

/-- Witness for C3's amended claim at concrete frames: an unrecognized
tag on the TTS side and a malformed (undecodable-payload) text frame on
the STT side are discarded with the state unchanged, while a
malformed-payload ready frame still bumps the ready-close count, all
processed from the fresh stream states. -/
theorem spec_C3_witness :
    (ttsStep ttsStreamInit (.frame (some ⟨"shiny_new", ⟨""⟩, none, ⟨"", 0⟩, none⟩))
       = (ttsStreamInit, false)) ∧
    (sttStep sttStreamInit (.frame (some ⟨"text", ⟨"", "", 0, 0, 0, []⟩, none, none, none, ⟨"", 0⟩⟩))
       = (sttStreamInit, false)) ∧
    ((ttsStep ttsStreamInit (.frame (some ⟨"ready", ⟨""⟩, none, ⟨"", 0⟩, none⟩))).1.readyCloseCount
       = ttsStreamInit.readyCloseCount + 1) :=
  ⟨(spec_C3 ttsStreamInit sttStreamInit ⟨"shiny_new", ⟨""⟩, none, ⟨"", 0⟩, none⟩
      ⟨"text", ⟨"", "", 0, 0, 0, []⟩, none, none, none, ⟨"", 0⟩⟩).2.1 (by decide),
   (spec_C3 ttsStreamInit sttStreamInit ⟨"shiny_new", ⟨""⟩, none, ⟨"", 0⟩, none⟩
      ⟨"text", ⟨"", "", 0, 0, 0, []⟩, none, none, none, ⟨"", 0⟩⟩).2.2.2.2.2.2.1 rfl rfl,
   ((spec_C3 ttsStreamInit sttStreamInit ⟨"ready", ⟨""⟩, none, ⟨"", 0⟩, none⟩
      ⟨"text", ⟨"", "", 0, 0, 0, []⟩, none, none, none, ⟨"", 0⟩⟩).2.2.2.2.2.2.2.2.2.1 rfl rfl).1⟩

/-- C4: publication of every decoded result item is a non-blocking
try-send — at capacity the new item is dropped and otherwise it is
appended — the dispatcher continues to the next frame (never stops,
never blocks), and for STT structured items the category-channel
publication and the unified-feed publication are each a try-send on
their own channel, hence independently droppable. -/
theorem spec_C4 {α : Type} (c : BChan α) (x : α) (sT : TTSState) (f : TTSFrame)
    (am : TTSAudioMessage) (bytes : List Nat) (sS : STTState) (g : STTFrame)
    (tm : STTTextMessage) (sm : STTStepMessage) (em : STTEndTextMessage) :
    (c.cap ≤ c.buf.length → c.trySend x = c) ∧
    (c.buf.length < c.cap → (c.trySend x).buf = c.buf ++ [x]) ∧
    (f.msgType = "audio" → f.audioMsg = some am → f.audioBytes = some bytes →
       ttsStep sT (.frame (some f)) = ({ sT with audioCh := sT.audioCh.trySend bytes }, false)) ∧
    (g.msgType = "text" → g.textMsg = some tm →
       sttStep sS (.frame (some g)) =
         ({ sS with textCh := sS.textCh.trySend ⟨tm.text, tm.startS, tm.streamID⟩,
                    allMsgCh := sS.allMsgCh.trySend (.text ⟨tm.text, tm.startS, tm.streamID⟩) },
          false)) ∧
    (g.msgType = "step" → g.stepMsg = some sm →
       sttStep sS (.frame (some g)) =
         ({ sS with vadCh := sS.vadCh.trySend ⟨sm.vad, sm.stepIdx, sm.stepDurationS, sm.totalDurationS⟩,
                    allMsgCh := sS.allMsgCh.trySend
                      (.step ⟨sm.vad, sm.stepIdx, sm.stepDurationS, sm.totalDurationS⟩) },
          false)) ∧
    (g.msgType = "end_text" → g.endTextMsg = some em →
       sttStep sS (.frame (some g)) =
         ({ sS with endTextCh := sS.endTextCh.trySend ⟨em.stopS, em.streamID⟩,
                    allMsgCh := sS.allMsgCh.trySend (.endText ⟨em.stopS, em.streamID⟩) },
          false)) := by
  refine ⟨BChan.trySend_of_full c x, BChan.trySend_of_not_full c x, ?_, ?_, ?_, ?_⟩
  · intro hty hm hb
    simp [ttsStep, ttsClassify, ttsApply, msgTypeReady, hty, hm, hb]
  · intro hty hm
    simp [sttStep, sttClassify, sttApply, msgTypeReady, hty, hm]
  · intro hty hm
    simp [sttStep, sttClassify, sttApply, msgTypeReady, hty, hm]
  · intro hty hm
    simp [sttStep, sttClassify, sttApply, msgTypeReady, hty, hm]

/-- Witness for C4: a saturated capacity-1 channel drops the new item;
a non-saturated one appends; the concrete "ab" audio frame is published
to the fresh stream's audio channel with the loop continuing. -/
theorem spec_C4_witness :
    (BChan.trySend { buf := [[1]], cap := 1, closed := false, closeCount := 0 } ([2] : List Nat)
       = { buf := [[1]], cap := 1, closed := false, closeCount := 0 }) ∧
    ((BChan.trySend { buf := [], cap := 1, closed := false, closeCount := 0 } ([2] : List Nat)).buf
       = [[2]]) ∧
    (ttsStep ttsStreamInit (.frame (some ttsAudioFrameAB))
       = ({ ttsStreamInit with audioCh := ttsStreamInit.audioCh.trySend [97, 98] }, false)) :=
  ⟨(spec_C4 { buf := [[1]], cap := 1, closed := false, closeCount := 0 } ([2] : List Nat)
      ttsStreamInit ttsAudioFrameAB ⟨"YWI="⟩ [97, 98] sttStreamInit
      ⟨"", ⟨"", "", 0, 0, 0, []⟩, none, none, none, ⟨"", 0⟩⟩ ⟨"", 0, none⟩ ⟨[], 0, 0, 0⟩
      ⟨0, none⟩).1 (by decide),
   (spec_C4 { buf := [], cap := 1, closed := false, closeCount := 0 } ([2] : List Nat)
      ttsStreamInit ttsAudioFrameAB ⟨"YWI="⟩ [97, 98] sttStreamInit
      ⟨"", ⟨"", "", 0, 0, 0, []⟩, none, none, none, ⟨"", 0⟩⟩ ⟨"", 0, none⟩ ⟨[], 0, 0, 0⟩
      ⟨0, none⟩).2.1 (by decide),
   (spec_C4 { buf := [[1]], cap := 1, closed := false, closeCount := 0 } ([2] : List Nat)
      ttsStreamInit ttsAudioFrameAB ⟨"YWI="⟩ [97, 98] sttStreamInit
      ⟨"", ⟨"", "", 0, 0, 0, []⟩, none, none, none, ⟨"", 0⟩⟩ ⟨"", 0, none⟩ ⟨[], 0, 0, 0⟩
      ⟨0, none⟩).2.2.1 rfl rfl rfl⟩

lemma concatChunks_eq_join (chunks : List (List Nat)) :
    concatChunks chunks = chunks.flatten := by
  suffices h : ∀ acc, chunks.foldl (fun acc c => acc ++ c) acc = acc ++ chunks.flatten by
    simpa [concatChunks] using h []
  induction chunks with
  | nil => intro acc; simp
  | cons c rest ih => intro acc; simp [ih, List.append_assoc]

lemma collectTextLoop_eq_map (delivered : List STTTextResult) :
    collectTextLoop delivered [] = delivered.map (fun t => t.text) := by
  suffices h : ∀ acc, collectTextLoop delivered acc = acc ++ delivered.map (fun t => t.text) by
    simpa using h []
  induction delivered with
  | nil => intro acc; simp [collectTextLoop]
  | cons t rest ih => intro acc; simp [collectTextLoop, ih]

/-- C5: when the audio channel closes after delivering chunks
c1..cN with the error register unset, `Collect` returns the
concatenation c1 ++ ... ++ cN in arrival order (with sample rate 48000
and the stream's request id); with the register set it returns that
error and no result; and the concrete ready/"ab"/"cd"/end-of-stream
wire sequence yields exactly "abcd" (bytes 97 98 99 100). -/
theorem spec_C5 (delivered : List (List Nat)) (e : WebSocketError) (rid : String) :
    ttsCollect delivered none rid =
      .ok { rawData := delivered.flatten, sampleRate := 48000, requestID := rid } ∧
    ttsCollect delivered (some e) rid = .error e ∧
    (ttsRun [.frame (some ttsReadyFrame), .frame (some ttsAudioFrameAB),
             .frame (some ttsAudioFrameCD), ttsEOSEvent]).1.audioCh.buf
      = [[97, 98], [99, 100]] ∧
    (ttsRun [.frame (some ttsReadyFrame), .frame (some ttsAudioFrameAB),
             .frame (some ttsAudioFrameCD), ttsEOSEvent]).1.err = none ∧
    ttsCollect [[97, 98], [99, 100]] none "r1" =
      .ok { rawData := [97, 98, 99, 100], sampleRate := 48000, requestID := "r1" } := by
  refine ⟨?_, rfl, by decide, by decide, rfl⟩
  simp [ttsCollect, concatChunks_eq_join]

/-- C6: when the text channel closes after delivering segments t1..tN
with the error register unset, `CollectText` returns the segment texts
joined in arrival order with a single separating space; with the
register set it returns that error; and segments "Hello", "world" yield
"Hello world". -/
theorem spec_C6 (delivered : List STTTextResult) (e : WebSocketError) :
    sttCollectText delivered none =
      .ok (String.intercalate " " (delivered.map (fun t => t.text))) ∧
    sttCollectText delivered (some e) = .error e ∧
    sttCollectText [⟨"Hello", 0, none⟩, ⟨"world", 0, none⟩] none = .ok "Hello world" := by
  refine ⟨?_, rfl, rfl⟩
  simp [sttCollectText, collectTextLoop_eq_map]

/-- C10: every successful `Collect` result carries sample rate 48000 —
a constant written by `Collect` itself, independent of the delivered
chunks, the request id, and (structurally, since `Collect` takes no
format input) of the `OutputFormat` requested in `TTSParams`. -/
theorem spec_C10 (delivered : List (List Nat)) (err : Option WebSocketError)
    (rid : String) (res : TTSResult) :
    ttsCollect delivered err rid = .ok res → res.sampleRate = 48000 := by
  intro h
  cases err with
  | none =>
    simp only [ttsCollect, Except.ok.injEq] at h
    rw [← h]
  | some e =>
    simp [ttsCollect] at h

/-- Witness for C10 at a concrete one-chunk collect. -/
theorem spec_C10_witness :
    ttsCollect [[5]] none "req" = .ok { rawData := [5], sampleRate := 48000, requestID := "req" } ∧
    ({ rawData := [5], sampleRate := 48000, requestID := "req" } : TTSResult).sampleRate = 48000 :=
  ⟨rfl, spec_C10 [[5]] none "req" ⟨[5], 48000, "req"⟩ rfl⟩

lemma ttsLoop_append (evs more : List TTSInEvent) :
    ∀ s : TTSState,
      ((ttsLoop s evs).2 = true → ttsLoop s (evs ++ more) = ttsLoop s evs) ∧
      ((ttsLoop s evs).2 = false → ttsLoop s (evs ++ more) = ttsLoop (ttsLoop s evs).1 more) := by
  induction evs with
  | nil =>
    intro s
    exact ⟨fun h => by simp [ttsLoop] at h, fun h => by simp [ttsLoop]⟩
  | cons ev rest ih =>
    intro s
    constructor
    · intro h
      simp only [List.cons_append, ttsLoop] at h ⊢
      cases hr : (ttsStep s ev).2 with
      | true => simp [hr]
      | false =>
        simp only [hr, Bool.false_eq_true, if_false] at h ⊢
        exact (ih (ttsStep s ev).1).1 h
    · intro h
      simp only [List.cons_append, ttsLoop] at h ⊢
      cases hr : (ttsStep s ev).2 with
      | true => simp [hr] at h
      | false =>
        simp only [hr, Bool.false_eq_true, if_false] at h ⊢
        exact (ih (ttsStep s ev).1).2 h

lemma sttLoop_append (evs more : List STTInEvent) :
    ∀ s : STTState,
      ((sttLoop s evs).2 = true → sttLoop s (evs ++ more) = sttLoop s evs) ∧
      ((sttLoop s evs).2 = false → sttLoop s (evs ++ more) = sttLoop (sttLoop s evs).1 more) := by
  induction evs with
  | nil =>
    intro s
    exact ⟨fun h => by simp [sttLoop] at h, fun h => by simp [sttLoop]⟩
  | cons ev rest ih =>
    intro s
    constructor
    · intro h
      simp only [List.cons_append, sttLoop] at h ⊢
      cases hr : (sttStep s ev).2 with
      | true => simp [hr]
      | false =>
        simp only [hr, Bool.false_eq_true, if_false] at h ⊢
        exact (ih (sttStep s ev).1).1 h
    · intro h
      simp only [List.cons_append, sttLoop] at h ⊢
      cases hr : (sttStep s ev).2 with
      | true => simp [hr] at h
      | false =>
        simp only [hr, Bool.false_eq_true, if_false] at h ⊢
        exact (ih (sttStep s ev).1).2 h

lemma ttsLoop_mono (evs : List TTSInEvent) :
    ∀ s : TTSState,
      (s.readyClosed = true → (ttsLoop s evs).1.readyClosed = true) ∧
      (∀ e, s.err = some e → (ttsLoop s evs).1.err = some e) := by
  induction evs with
  | nil =>
    intro s
    exact ⟨fun h => by simpa [ttsLoop] using h, fun e h => by simpa [ttsLoop] using h⟩
  | cons ev rest ih =>
    intro s
    simp only [ttsLoop, ttsStep]
    cases hc : ttsClassify ev with
    | discard =>
      simpa [ttsApply] using ih s
    | doReady rid =>
      cases hs : s.readySignaled with
      | true =>
        simpa [ttsApply, hs] using ih { s with requestID := rid }
      | false =>
        constructor
        · intro h
          simpa [ttsApply, hs, TTSState.closeReady] using
            (ih { (TTSState.closeReady { s with requestID := rid }) with readySignaled := true }).1 rfl
        · intro e h
          simpa [ttsApply, hs, TTSState.closeReady] using
            (ih { (TTSState.closeReady { s with requestID := rid }) with readySignaled := true }).2 e h
    | publish bytes =>
      simpa [ttsApply] using ih { s with audioCh := s.audioCh.trySend bytes }
    | stopEOS =>
      exact ⟨fun h => by simpa [ttsApply] using h, fun e h => by simpa [ttsApply] using h⟩
    | stopError e0 =>
      constructor
      · intro h
        cases hs : s.readySignaled <;>
          simp [ttsApply, hs, TTSState.setErrorReg, TTSState.closeReady, h]
      · intro e h
        cases hs : s.readySignaled <;>
          simp [ttsApply, hs, TTSState.setErrorReg, TTSState.closeReady, h]
    | stopRead e0 =>
      constructor
      · intro h
        cases hs : s.readySignaled <;>
          simp [ttsApply, hs, TTSState.setErrorReg, TTSState.closeReady, h]
      · intro e h
        cases hs : s.readySignaled <;>
          simp [ttsApply, hs, TTSState.setErrorReg, TTSState.closeReady, h]

lemma sttLoop_mono (evs : List STTInEvent) :
    ∀ s : STTState,
      (s.readyClosed = true → (sttLoop s evs).1.readyClosed = true) ∧
      (∀ e, s.err = some e → (sttLoop s evs).1.err = some e) := by
  induction evs with
  | nil =>
    intro s
    exact ⟨fun h => by simpa [sttLoop] using h, fun e h => by simpa [sttLoop] using h⟩
  | cons ev rest ih =>
    intro s
    simp only [sttLoop, sttStep]
    cases hc : sttClassify ev with
    | discard =>
      simpa [sttApply] using ih s
    | doReady info =>
      cases hs : s.readySignaled with
      | true =>
        simpa [sttApply, hs] using ih { s with readyInfo := some info }
      | false =>
        constructor
        · intro h
          simpa [sttApply, hs, STTState.closeReady] using
            (ih { (STTState.closeReady { s with readyInfo := some info }) with readySignaled := true }).1 rfl
        · intro e h
          simpa [sttApply, hs, STTState.closeReady] using
            (ih { (STTState.closeReady { s with readyInfo := some info }) with readySignaled := true }).2 e h
    | publishText r =>
      simpa [sttApply] using ih { s with textCh := s.textCh.trySend r, allMsgCh := s.allMsgCh.trySend (.text r) }
    | publishStep r =>
      simpa [sttApply] using ih { s with vadCh := s.vadCh.trySend r, allMsgCh := s.allMsgCh.trySend (.step r) }
    | publishEndText r =>
      simpa [sttApply] using ih { s with endTextCh := s.endTextCh.trySend r, allMsgCh := s.allMsgCh.trySend (.endText r) }
    | stopEOS =>
      exact ⟨fun h => by simpa [sttApply] using h, fun e h => by simpa [sttApply] using h⟩
    | stopError e0 =>
      constructor
      · intro h
        cases hs : s.readySignaled <;>
          simp [sttApply, hs, STTState.setErrorReg, STTState.closeReady, h]
      · intro e h
        cases hs : s.readySignaled <;>
          simp [sttApply, hs, STTState.setErrorReg, STTState.closeReady, h]
    | stopRead e0 =>
      constructor
      · intro h
        cases hs : s.readySignaled <;>
          simp [sttApply, hs, STTState.setErrorReg, STTState.closeReady, h]
      · intro e h
        cases hs : s.readySignaled <;>
          simp [sttApply, hs, STTState.setErrorReg, STTState.closeReady, h]

lemma ttsRun_ready_err (evs : List TTSInEvent) :
    (ttsRun evs).1.readyClosed = (ttsLoop ttsStreamInit evs).1.readyClosed ∧
    (ttsRun evs).1.err = (ttsLoop ttsStreamInit evs).1.err := by
  simp only [ttsRun]
  cases h : (ttsLoop ttsStreamInit evs).2 <;> simp [h, ttsDefers]

lemma sttRun_ready_err (evs : List STTInEvent) :
    (sttRun evs).1.readyClosed = (sttLoop sttStreamInit evs).1.readyClosed ∧
    (sttRun evs).1.err = (sttLoop sttStreamInit evs).1.err := by
  simp only [sttRun]
  cases h : (sttLoop sttStreamInit evs).2 <;> simp [h, sttDefers]

lemma ttsWaitReady_some (s : TTSState) (o : Option WebSocketError) :
    ttsWaitReady s = some o ↔ s.readyClosed = true ∧ s.err = o := by
  unfold ttsWaitReady
  cases h : s.readyClosed <;> simp [h]

lemma sttWaitReady_error (s : STTState) (e : WebSocketError) :
    sttWaitReady s = some (.error e) ↔ s.readyClosed = true ∧ s.err = some e := by
  unfold sttWaitReady
  cases h : s.readyClosed with
  | false => simp [h]
  | true =>
    cases he : s.err <;> simp [h, he]

/-- C7 counterexample: after a Ready envelope, `WaitReady` completes
via the gate with success (nil error); after one further inbound frame
— a server Error envelope — a second `WaitReady` also completes via the
gate but returns the recorded error: a different outcome from the first
call, refuting "subsequent calls return the same outcome". -/
theorem spec_C7_counterexample :
    ttsWaitReady (ttsRun [.frame (some ttsReadyFrame)]).1 = some none ∧
    ttsWaitReady (ttsRun [.frame (some ttsReadyFrame), .frame (some ttsErrorFrame)]).1
      = some (some ⟨"boom", 400⟩) ∧
    some (none : Option WebSocketError) ≠ some (some (⟨"boom", 400⟩ : WebSocketError)) := by
  exact ⟨by decide, by decide, by decide⟩

/-- C7 amended: the gate never reopens (once `waitReady` completes via
the gate, every later call does too), and an error outcome is stable —
once the error register holds `e`, every later gate-completed
`waitReady` returns that same first error, for any later inbound
frames; only a success outcome can be superseded by a later-recorded
error. -/
theorem spec_C7 (evs more : List TTSInEvent) (evs2 more2 : List STTInEvent) :
    ((ttsRun evs).1.readyClosed = true → (ttsRun (evs ++ more)).1.readyClosed = true) ∧
    (∀ e, (ttsRun evs).1.err = some e → (ttsRun (evs ++ more)).1.err = some e) ∧
    (∀ e, ttsWaitReady (ttsRun evs).1 = some (some e) →
       ttsWaitReady (ttsRun (evs ++ more)).1 = some (some e)) ∧
    ((sttRun evs2).1.readyClosed = true → (sttRun (evs2 ++ more2)).1.readyClosed = true) ∧
    (∀ e, (sttRun evs2).1.err = some e → (sttRun (evs2 ++ more2)).1.err = some e) ∧
    (∀ e, sttWaitReady (sttRun evs2).1 = some (.error e) →
       sttWaitReady (sttRun (evs2 ++ more2)).1 = some (.error e)) := by
  have hc : ((ttsLoop ttsStreamInit evs).1.readyClosed = true →
      (ttsLoop ttsStreamInit (evs ++ more)).1.readyClosed = true) ∧
      (∀ e, (ttsLoop ttsStreamInit evs).1.err = some e →
        (ttsLoop ttsStreamInit (evs ++ more)).1.err = some e) := by
    cases h : (ttsLoop ttsStreamInit evs).2 with
    | true =>
      rw [(ttsLoop_append evs more ttsStreamInit).1 h]
      exact ⟨id, fun e he => he⟩
    | false =>
      rw [(ttsLoop_append evs more ttsStreamInit).2 h]
      exact ttsLoop_mono more (ttsLoop ttsStreamInit evs).1
  have hcs : ((sttLoop sttStreamInit evs2).1.readyClosed = true →
      (sttLoop sttStreamInit (evs2 ++ more2)).1.readyClosed = true) ∧
      (∀ e, (sttLoop sttStreamInit evs2).1.err = some e →
        (sttLoop sttStreamInit (evs2 ++ more2)).1.err = some e) := by
    cases h : (sttLoop sttStreamInit evs2).2 with
    | true =>
      rw [(sttLoop_append evs2 more2 sttStreamInit).1 h]
      exact ⟨id, fun e he => he⟩
    | false =>
      rw [(sttLoop_append evs2 more2 sttStreamInit).2 h]
      exact sttLoop_mono more2 (sttLoop sttStreamInit evs2).1
  obtain ⟨hr1, hr2⟩ := ttsRun_ready_err evs
  obtain ⟨hr1m, hr2m⟩ := ttsRun_ready_err (evs ++ more)
  obtain ⟨hs1, hs2⟩ := sttRun_ready_err evs2
  obtain ⟨hs1m, hs2m⟩ := sttRun_ready_err (evs2 ++ more2)
  have tcl : (ttsRun evs).1.readyClosed = true → (ttsRun (evs ++ more)).1.readyClosed = true := by
    intro h; rw [hr1m]; exact hc.1 (by rw [← hr1]; exact h)
  have terr : ∀ e, (ttsRun evs).1.err = some e → (ttsRun (evs ++ more)).1.err = some e := by
    intro e h; rw [hr2m]; exact hc.2 e (by rw [← hr2]; exact h)
  have scl : (sttRun evs2).1.readyClosed = true → (sttRun (evs2 ++ more2)).1.readyClosed = true := by
    intro h; rw [hs1m]; exact hcs.1 (by rw [← hs1]; exact h)
  have serr : ∀ e, (sttRun evs2).1.err = some e → (sttRun (evs2 ++ more2)).1.err = some e := by
    intro e h; rw [hs2m]; exact hcs.2 e (by rw [← hs2]; exact h)
  refine ⟨tcl, terr, ?_, scl, serr, ?_⟩
  · intro e h
    obtain ⟨h1, h2⟩ := (ttsWaitReady_some _ _).1 h
    exact (ttsWaitReady_some _ _).2 ⟨tcl h1, terr e h2⟩
  · intro e h
    obtain ⟨h1, h2⟩ := (sttWaitReady_error _ _).1 h
    exact (sttWaitReady_error _ _).2 ⟨scl h1, serr e h2⟩

/-- Witness for the amended C7: a pre-Ready error resolves the gate
with that error, and the outcome is unchanged after further inbound
frames, on both session kinds. -/
theorem spec_C7_witness :
    ttsWaitReady (ttsRun ([.frame (some ttsErrorFrame)] ++ [.frame (some ttsReadyFrame)])).1
      = some (some ⟨"boom", 400⟩) ∧
    sttWaitReady (sttRun ([sttErrEvent] ++ [sttEOSEvent])).1 = some (.error ⟨"bad", 500⟩) :=
  ⟨(spec_C7 [.frame (some ttsErrorFrame)] [.frame (some ttsReadyFrame)] [] []).2.2.1
      ⟨"boom", 400⟩ (by decide),
   (spec_C7 [] [] [sttErrEvent] [sttEOSEvent]).2.2.2.2.2 ⟨"bad", 500⟩
      ((sttWaitReady_error _ _).2 ⟨by decide, by decide⟩)⟩

lemma streamCloseMany_done (rs : List (Option WebSocketError)) :
    ∀ st : CloseState, st.onceDone = true → streamCloseMany st rs = st := by
  induction rs with
  | nil => intro st h; rfl
  | cons r rest ih =>
    intro st h
    simp only [streamCloseMany, streamClose, h, if_true]
    exact ih st h

/-- C8: `Close` is idempotent: over any number of calls the underlying
connection is released exactly once (the `sync.Once` body runs only the
first time); the first call returns whatever the transport's own close
returns (success when it succeeds), and a second call always returns
success without re-releasing, whatever the transport would have
answered — and since the dispatcher never touches the close-once state,
this holds before or after dispatcher termination. -/
theorem spec_C8 (r r2 : Option WebSocketError) (rs : List (Option WebSocketError)) :
    (streamClose closeStateInit none).1 = none ∧
    (streamClose closeStateInit r).1 = r ∧
    (streamClose closeStateInit r).2.connReleaseCount = 1 ∧
    (streamClose (streamClose closeStateInit r).2 r2).1 = none ∧
    (streamClose (streamClose closeStateInit r).2 r2).2.connReleaseCount = 1 ∧
    (streamCloseMany closeStateInit (r :: rs)).connReleaseCount = 1 := by
  refine ⟨?_, ?_, ?_, ?_, ?_, ?_⟩
  · simp [streamClose, closeStateInit]
  · simp [streamClose, closeStateInit]
  · simp [streamClose, closeStateInit]
  · simp [streamClose, closeStateInit]
  · simp [streamClose, closeStateInit]
  · show (streamCloseMany (streamClose closeStateInit r).2 rs).connReleaseCount = 1
    rw [streamCloseMany_done rs _ rfl]
    simp [streamClose, closeStateInit]

@[simp] lemma BChan.doClose_cap {α : Type} (c : BChan α) : (c.doClose).cap = c.cap := rfl

lemma ttsLoop_caps (evs : List TTSInEvent) :
    ∀ s : TTSState, (ttsLoop s evs).1.audioCh.cap = s.audioCh.cap := by
  induction evs with
  | nil => intro s; simp [ttsLoop]
  | cons ev rest ih =>
    intro s
    simp only [ttsLoop, ttsStep]
    cases hc : ttsClassify ev with
    | discard => simpa [ttsApply, hc] using ih s
    | doReady rid =>
      cases hs : s.readySignaled with
      | true => simpa [ttsApply, hc, hs] using ih { s with requestID := rid }
      | false => simpa [ttsApply, hc, hs, TTSState.closeReady] using ih { (TTSState.closeReady { s with requestID := rid }) with readySignaled := true }
    | publish bytes => simpa [ttsApply, hc] using ih { s with audioCh := s.audioCh.trySend bytes }
    | stopEOS => simp [ttsApply, hc]
    | stopError e =>
      cases hs : s.readySignaled <;> simp [ttsApply, hc, hs, TTSState.setErrorReg, TTSState.closeReady]
    | stopRead e =>
      cases hs : s.readySignaled <;> simp [ttsApply, hc, hs, TTSState.setErrorReg, TTSState.closeReady]

lemma sttLoop_caps (evs : List STTInEvent) :
    ∀ s : STTState,
      (sttLoop s evs).1.textCh.cap = s.textCh.cap ∧
      (sttLoop s evs).1.vadCh.cap = s.vadCh.cap ∧
      (sttLoop s evs).1.endTextCh.cap = s.endTextCh.cap ∧
      (sttLoop s evs).1.allMsgCh.cap = s.allMsgCh.cap := by
  induction evs with
  | nil => intro s; simp [sttLoop]
  | cons ev rest ih =>
    intro s
    simp only [sttLoop, sttStep]
    cases hc : sttClassify ev with
    | discard => simpa [sttApply, hc] using ih s
    | doReady info =>
      cases hs : s.readySignaled with
      | true => simpa [sttApply, hc, hs] using ih { s with readyInfo := some info }
      | false => simpa [sttApply, hc, hs, STTState.closeReady] using ih { (STTState.closeReady { s with readyInfo := some info }) with readySignaled := true }
    | publishText r => simpa [sttApply, hc] using ih { s with textCh := s.textCh.trySend r, allMsgCh := s.allMsgCh.trySend (.text r) }
    | publishStep r => simpa [sttApply, hc] using ih { s with vadCh := s.vadCh.trySend r, allMsgCh := s.allMsgCh.trySend (.step r) }
    | publishEndText r => simpa [sttApply, hc] using ih { s with endTextCh := s.endTextCh.trySend r, allMsgCh := s.allMsgCh.trySend (.endText r) }
    | stopEOS => simp [sttApply, hc]
    | stopError e =>
      cases hs : s.readySignaled <;> simp [sttApply, hc, hs, STTState.setErrorReg, STTState.closeReady]
    | stopRead e =>
      cases hs : s.readySignaled <;> simp [sttApply, hc, hs, STTState.setErrorReg, STTState.closeReady]

/-- C9 counterexample: the STT end-text channel is created with
capacity 10, which is not approximately 100 (not even within the
generous band [90, 110]); the claim's "each STT structured category
channel holds approximately 100 items" fails for it. -/
theorem spec_C9_counterexample :
    sttStreamInit.endTextCh.cap = 10 ∧
    ¬(90 ≤ sttStreamInit.endTextCh.cap ∧ sttStreamInit.endTextCh.cap ≤ 110) := by decide

/-- C9 amended: the channels are bounded queues of fixed capacity — 100
for the TTS audio channel, the STT text channel, the STT VAD channel
and the STT unified feed channel, but 10 for the STT end-text channel —
and these capacities never change over any dispatcher run. -/
theorem spec_C9 (evsT : List TTSInEvent) (evsS : List STTInEvent) :
    ttsStreamInit.audioCh.cap = 100 ∧
    sttStreamInit.textCh.cap = 100 ∧
    sttStreamInit.vadCh.cap = 100 ∧
    sttStreamInit.endTextCh.cap = 10 ∧
    sttStreamInit.allMsgCh.cap = 100 ∧
    (ttsRun evsT).1.audioCh.cap = 100 ∧
    (sttRun evsS).1.textCh.cap = 100 ∧
    (sttRun evsS).1.vadCh.cap = 100 ∧
    (sttRun evsS).1.endTextCh.cap = 10 ∧
    (sttRun evsS).1.allMsgCh.cap = 100 := by
  have hT := ttsLoop_caps evsT ttsStreamInit
  obtain ⟨hS1, hS2, hS3, hS4⟩ := sttLoop_caps evsS sttStreamInit
  simp only [ttsStreamInit] at hT
  simp only [sttStreamInit] at hS1 hS2 hS3 hS4
  refine ⟨rfl, rfl, rfl, rfl, rfl, ?_, ?_, ?_, ?_, ?_⟩ <;>
    first
    | (simp only [ttsRun]
       cases h : (ttsLoop ttsStreamInit evsT).2 <;>
         simp [h, ttsDefers, BChan.doClose, hT, ttsStreamInit])
    | (simp only [sttRun]
       cases h : (sttLoop sttStreamInit evsS).2 <;>
         simp [h, sttDefers, BChan.doClose, hS1, hS2, hS3, hS4, sttStreamInit])

example : (ttsRun [TTSInEvent.frame (some ⟨"ready", ⟨"r1"⟩, none, ⟨"", 0⟩, none⟩),
                   TTSInEvent.frame (some ⟨"end_of_stream", ⟨""⟩, none, ⟨"", 0⟩, none⟩)]).2
    = true := by decide

example : (ttsRun [TTSInEvent.frame (some ⟨"ready", ⟨"r1"⟩, none, ⟨"", 0⟩, none⟩)]).1.readyCloseCount
    = 1 := by decide

example : ttsCollect [[97, 98], [99, 100]] none "r1"
    = .ok { rawData := [97, 98, 99, 100], sampleRate := 48000, requestID := "r1" } := rfl

end Gradium
